import Mathlib

/-!
# Verification of the SWMM5 engine orchestration core (swmm5.c)

Shallow embedding of the lifecycle state machine and time-stepping
orchestrator of `src/itzi/swmm/source/swmm5.c`.  The C doubles that hold
simulation clocks are modelled as rationals (`ℚ`), C `int` configuration
values as `ℤ`/`Nat`, and the process-wide global variables as one explicit
state record threaded through every operation.  Collaborator modules that
are not part of the source tree (routing.c, runoff.c, report.c, ...) are
modelled from the specification's collaborator contracts; each such
definition carries a doc comment saying so.  Fallible operations return
`Option` results; the runoff catch-up loop is given explicit fuel and
returns `none` when the fuel is exhausted.
-/

namespace Swmm

/-- Error codes.  `error.h` is not part of src; the codes are modelled as
distinct naturals with `ERR_NONE = 0` (the code tests errors by `ErrorCode`
being nonzero). -/
def ERR_NONE : Nat := 0

/-- "Project not open" usage-error code (modelled, distinct nonzero value). -/
def ERR_NOT_OPEN : Nat := 501

/-- Fatal invalid-timestep error code (modelled, distinct nonzero value). -/
def ERR_TIMESTEP : Nat := 504

/-- System-fault error code (modelled, distinct nonzero value). -/
def ERR_SYSTEM : Nat := 500

/-- Numeric-identifier-out-of-range error code (modelled, distinct value). -/
def ERR_NUMBER : Nat := 505

/-- Milliseconds per day.  `consts.h` is not part of src; the constant is
the standard conversion used by `NewRoutingTime / MSECperDAY`. -/
def MSECperDAY : ℚ := 86400000

/-- The fields of a SWMM drainage-network node that the coupling accessors
of swmm5.c read or write (`objects.h` is not in src; only the fields used
by the accessors are modelled). -/
structure Node where
  id : String
  inflow : ℚ
  outflow : ℚ
  invertElev : ℚ
  newDepth : ℚ
  fullDepth : ℚ
  initDepth : ℚ
  surDepth : ℚ
  pondedArea : ℚ
  degree : ℤ
  updated : ℤ
  crownElev : ℚ
  losses : ℚ
  newVolume : ℚ
  fullVolume : ℚ
  overflow : ℚ
  newLatFlow : ℚ
  dllInflow : ℚ
  nodeType : ℤ
  subIndex : ℤ
  deriving DecidableEq

/-- The out-parameter record filled in by `swmm_getNodeData`. -/
structure NodeData where
  inflow : ℚ
  outflow : ℚ
  head : ℚ
  crestElev : ℚ
  nodeType : ℤ
  subIndex : ℤ
  invertElev : ℚ
  initDepth : ℚ
  fullDepth : ℚ
  surDepth : ℚ
  pondedArea : ℚ
  degree : ℤ
  updated : ℤ
  crownElev : ℚ
  losses : ℚ
  newVolume : ℚ
  fullVolume : ℚ
  overflow : ℚ
  newDepth : ℚ
  newLatFlow : ℚ
  deriving DecidableEq

/-- The process-wide simulation state of swmm5.c: the static flags of the
module, the shared global clocks and accounting variables of `globals.h`
that swmm5.c reads or writes, the immutable project configuration loaded
at open, ghost call counters recording how often each collaborator was
invoked, and the node array used by the coupling accessors. -/
structure SwmmState where
  errorCode : Nat
  warningCode : Nat
  isOpenFlag : Bool
  isStartedFlag : Bool
  saveResultsFlag : Bool
  exceptionCount : Nat
  doRunoff : Bool
  doRouting : Bool
  newRunoffTime : ℚ
  newRoutingTime : ℚ
  reportTime : ℚ
  stepCount : Nat
  nonConvergeCount : Nat
  runoffError : ℚ
  gwaterError : ℚ
  flowError : ℚ
  qualError : ℚ
  totalDuration : ℚ
  reportStep : ℤ
  wetStep : ℤ
  routeStep : ℚ
  ignoreRainfall : Bool
  ignoreRouting : Bool
  nSubcatch : Nat
  nNode : Nat
  startDateTime : ℚ
  runoffCalls : Nat
  routingCalls : Nat
  climateCalls : Nat
  climateLast : Option ℚ
  savedResults : List ℚ
  nodes : List Node
  deriving DecidableEq

/-- Oracle describing the behaviour of the collaborator engines that are
not part of src (routing.c, runoff.c, rain.c, project.c, ...): the step
length the routing engine answers for each orchestrator invocation, the
clock advance and error code of each runoff execution, the error code of
each routing execution, and the error outcomes of the open-phase
collaborators. -/
structure Env where
  routingStepOf : Nat → ℚ
  runoffAdv : Nat → ℚ
  runoffErrAt : Nat → Nat
  routingErrAt : Nat → Nat
  projectOpenErr : Nat
  projectReadErr : Nat
  projectValidateErr : Nat
  rainOpenErr : Nat
  outputOpenErr : Nat
  runoffOpenErr : Nat
  hotstartOk : Bool
  hotstartErr : Nat
  routingOpenErr : Nat
  massbalOpenErr : Nat
  statsOpenErr : Nat

/-- Modelled from the spec: `report_writeErrorMsg` (report.c is not in src)
records the error condition in the sticky process-wide code.  The guarded
phases call it and immediately `return ErrorCode`, and the spec requires an
out-of-order call to be "rejected with a distinct not-open condition", so
the function must set `ErrorCode` to the given code. -/
def report_writeErrorMsg (code : Nat) (s : SwmmState) : SwmmState :=
  { s with errorCode := code }

/-- Modelled from the spec: a collaborator open call that "may set the
sticky error code" on failure; the oracle supplies the error outcome
(`0` = success). -/
def collabSet (e : Nat) (s : SwmmState) : SwmmState :=
  if e ≠ 0 then { s with errorCode := e } else s

/-- Modelled from the spec: `runoff_execute` (runoff.c is not in src)
"advances its own clock by one internal step" and may report an error; the
oracle supplies the advance and the error outcome of each call, indexed by
the ghost runoff-call counter. -/
def runoff_execute (env : Env) (s : SwmmState) : SwmmState :=
  { s with
    newRunoffTime := s.newRunoffTime + env.runoffAdv s.runoffCalls
    errorCode := env.runoffErrAt s.runoffCalls
    runoffCalls := s.runoffCalls + 1 }

/-- `getDateTime` (swmm5.c): calendar date/time for elapsed milliseconds of
simulation time.  `datetime_addSeconds` (datetime.c, not in src) adds
seconds to a decimal-days date, i.e. adds `secs / 86400` days. -/
def getDateTime (startDateTime : ℚ) (elapsedMsec : ℚ) : ℚ :=
  startDateTime + ((elapsedMsec + 1) / 1000) / 86400

/-- Modelled from the spec: `climate_setState(dateTime)` "updates slow
boundary conditions"; the model records the date-time argument and counts
the calls. -/
def climate_setState (dt : ℚ) (s : SwmmState) : SwmmState :=
  { s with climateLast := some dt, climateCalls := s.climateCalls + 1 }

/-- Modelled from the spec: `routing_execute(method, stepSeconds)`
(routing.c is not in src) advances the shared routing clock and "must
leave the shared clock at the candidate instant on success"; on a reported
error it sets the sticky code and the clock is not advanced.  The oracle
supplies each call's error outcome, indexed by the ghost routing-call
counter; `nrt` is the candidate routing instant computed by the
orchestrator. -/
def routing_execute (env : Env) (_routingStep : ℚ) (nrt : ℚ)
    (s : SwmmState) : SwmmState :=
  let e := env.routingErrAt s.routingCalls
  if e ≠ 0 then { s with errorCode := e, routingCalls := s.routingCalls + 1 }
  else { s with newRoutingTime := nrt, routingCalls := s.routingCalls + 1 }

/-- The candidate routing step length of `execRouting` before clamping:
`MIN(WetStep, ReportStep)` when routing is disabled, otherwise the value
answered by `routing_getRoutingStep` (oracle, indexed by the step count at
entry). -/
def rawRoutingStep (env : Env) (s : SwmmState) : ℚ :=
  if !s.doRouting then min (s.wetStep : ℚ) (s.reportStep : ℚ)
  else env.routingStepOf s.stepCount

/-- The 5.1.008 clamp of `execRouting`: given the current routing clock
`rt`, the total duration `td` and a routing step (seconds), returns the
(possibly clamped) step and the candidate next routing instant (msec). -/
def clampPair (rt td stepLen : ℚ) : ℚ × ℚ :=
  let nrt := rt + 1000 * stepLen
  if nrt > td then (max ((td - rt) / 1000) (1 / 1000), td)
  else (stepLen, nrt)

/-- Result of the runoff catch-up loop: either the loop condition became
false (`done`) or a runoff execution reported an error and `execRouting`
returns early (`aborted`). -/
inductive LoopResult where
  | done (s : SwmmState)
  | aborted (s : SwmmState)
  deriving DecidableEq

/-- The state carried by a loop result. -/
def LoopResult.state : LoopResult → SwmmState
  | .done s => s
  | .aborted s => s

/-- The runoff catch-up loop of `execRouting`:
`while (NewRunoffTime < nextRoutingTime) { runoff_execute(); if (ErrorCode) return; }`,
with explicit fuel (`none` = fuel exhausted before the loop finished). -/
def runoffLoop (env : Env) (nrt : ℚ) : Nat → SwmmState → Option LoopResult
  | 0, s => if s.newRunoffTime < nrt then none else some (.done s)
  | fuel + 1, s =>
    if s.newRunoffTime < nrt then
      let s' := runoff_execute env s
      if s'.errorCode ≠ 0 then some (.aborted s')
      else runoffLoop env nrt fuel s'
    else some (.done s)

/-- The routing phase of `execRouting`:
`if (DoRouting) routing_execute(RouteModel, routingStep); else NewRoutingTime = nextRoutingTime;`. -/
def routePhase (env : Env) (routingStep : ℚ) (nrt : ℚ)
    (s : SwmmState) : SwmmState :=
  if s.doRouting then routing_execute env routingStep nrt s
  else { s with newRoutingTime := nrt }

/-- `execRouting` (swmm5.c): increments the step count, determines the
routing step length, fails fatally when it is non-positive, clamps the
step against the total duration, runs the runoff catch-up loop (or updates
the climate state when runoff is inactive), and routes flow through the
drainage system. -/
def execRouting (env : Env) (fuel : Nat) (s : SwmmState) :
    Option SwmmState :=
  let s1 := { s with stepCount := s.stepCount + 1 }
  let stepLen := rawRoutingStep env s
  if stepLen ≤ 0 then some { s1 with errorCode := ERR_TIMESTEP }
  else
    let rs := (clampPair s1.newRoutingTime s1.totalDuration stepLen).1
    let nrt := (clampPair s1.newRoutingTime s1.totalDuration stepLen).2
    if s1.doRunoff then
      match runoffLoop env nrt fuel s1 with
      | none => none
      | some (.aborted s2) => some s2
      | some (.done s2) => some (routePhase env rs nrt s2)
    else
      some (routePhase env rs nrt
        (climate_setState (getDateTime s1.startDateTime s1.newRoutingTime) s1))

/-- Modelled from the spec: the result stream's `saveResults(instant)`
(output.c is not in src) persists one snapshot keyed by the given instant;
the model appends the instant to the list of saved snapshots. -/
def output_saveResults (t : ℚ) (s : SwmmState) : SwmmState :=
  { s with savedResults := s.savedResults ++ [t] }

/-- The reporting step of `swmm_step`: when the routing clock has reached
`ReportTime`, persist a snapshot keyed by `ReportTime` (if saving is
enabled) and advance `ReportTime` by one report interval. -/
def reportPhase (s : SwmmState) : SwmmState :=
  if s.newRoutingTime ≥ s.reportTime then
    let s1 := if s.saveResultsFlag then output_saveResults s.reportTime s
              else s
    { s1 with reportTime := s1.reportTime + ((1000 * s1.reportStep : ℤ) : ℚ) }
  else s

/-- The elapsed-time out-parameter written by `swmm_step`: the routing
clock in decimal days while it is below the total duration, and exactly
`0` once the total duration has been reached. -/
def elapsedOut (s : SwmmState) : ℚ :=
  if s.newRoutingTime < s.totalDuration then s.newRoutingTime / MSECperDAY
  else 0

/-- `swmm_step` (swmm5.c): advances the simulation by one routing time
step.  Returns the new state, the updated elapsed time (decimal days) and
the returned error code; `none` means the runoff catch-up loop ran out of
fuel. -/
def swmm_step (env : Env) (fuel : Nat) (s : SwmmState) (elapsedTime : ℚ) :
    Option (SwmmState × ℚ × Nat) :=
  if s.errorCode ≠ 0 then some (s, elapsedTime, s.errorCode)
  else if !s.isOpenFlag || !s.isStartedFlag then
    let s1 := report_writeErrorMsg ERR_NOT_OPEN s
    some (s1, elapsedTime, s1.errorCode)
  else
    match (if s.newRoutingTime < s.totalDuration then execRouting env fuel s
           else some s) with
    | none => none
    | some s1 =>
      let s2 := reportPhase s1
      some (s2, elapsedOut s2, s2.errorCode)

/-- `swmm_open` (swmm5.c): resets the error and warning codes and the
phase flags, opens the project, reads the input and validates it (the
project collaborator of project.c is not in src; its error outcomes are
supplied by the oracle).  Returns the new state and the returned code. -/
def swmm_open (env : Env) (s : SwmmState) : SwmmState × Nat :=
  let s0 := { s with errorCode := 0, warningCode := 0, isOpenFlag := false,
                     isStartedFlag := false, exceptionCount := 0 }
  let s1 := collabSet env.projectOpenErr s0
  if s1.errorCode ≠ 0 then (s1, s1.errorCode)
  else
    let s2 := { s1 with isOpenFlag := true }
    let s3 := collabSet env.projectReadErr s2
    if s3.errorCode ≠ 0 then (s3, s3.errorCode)
    else
      let s4 := collabSet env.projectValidateErr s3
      (s4, s4.errorCode)

/-- `swmm_start` (swmm5.c): guarded by the sticky error code and the phase
flags, re-initializes the clocks, counters and continuity errors, opens
the rainfall processor, derives `DoRunoff`/`DoRouting` from the object
counts and ignore flags, opens the output, runoff, hot-start and routing
collaborators and the accumulators (all modelled from the spec through the
oracle's error outcomes), and finally stores the save-results flag. -/
def swmm_start (env : Env) (saveResults : Bool) (s : SwmmState) :
    SwmmState × Nat :=
  if s.errorCode ≠ 0 then (s, s.errorCode)
  else if !s.isOpenFlag || s.isStartedFlag then
    let s1 := report_writeErrorMsg ERR_NOT_OPEN s
    (s1, s1.errorCode)
  else
    let s1 := { s with exceptionCount := 0,
                       newRunoffTime := 0, newRoutingTime := 0,
                       reportTime := ((1000 * s.reportStep : ℤ) : ℚ),
                       stepCount := 0, nonConvergeCount := 0,
                       isStartedFlag := true,
                       runoffError := 0, gwaterError := 0,
                       flowError := 0, qualError := 0 }
    let s2 := if !s1.ignoreRainfall then collabSet env.rainOpenErr s1 else s1
    if s2.errorCode ≠ 0 then (s2, s2.errorCode)
    else
      let s3 := { s2 with doRunoff := decide (0 < s2.nSubcatch),
                          doRouting := decide (0 < s2.nNode) && !s2.ignoreRouting }
      let s4 := collabSet env.outputOpenErr s3
      let s5 := if s4.doRunoff then collabSet env.runoffOpenErr s4 else s4
      if !env.hotstartOk then
        let s6 := collabSet env.hotstartErr s5
        (s6, s6.errorCode)
      else
        let s6 := if s5.doRouting then collabSet env.routingOpenErr s5 else s5
        let s7 := collabSet env.massbalOpenErr s6
        let s8 := collabSet env.statsOpenErr s7
        let s9 := { s8 with saveResultsFlag := saveResults }
        (s9, s9.errorCode)

/-- `swmm_end` (swmm5.c): rejected when no project is open; when a run is
started, closes the computing collaborators (no effect on the modelled
state) and clears the started flag. -/
def swmm_end (s : SwmmState) : SwmmState × Nat :=
  if !s.isOpenFlag then
    let s1 := report_writeErrorMsg ERR_NOT_OPEN s
    (s1, s1.errorCode)
  else if s.isStartedFlag then
    ({ s with isStartedFlag := false }, s.errorCode)
  else (s, s.errorCode)

/-- The `nodeData` record assembled by `swmm_getNodeData` from a node. -/
def mkNodeData (n : Node) : NodeData :=
  { inflow := n.inflow, outflow := n.outflow,
    head := n.invertElev + n.newDepth,
    crestElev := n.invertElev + n.fullDepth,
    nodeType := n.nodeType, subIndex := n.subIndex,
    invertElev := n.invertElev, initDepth := n.initDepth,
    fullDepth := n.fullDepth, surDepth := n.surDepth,
    pondedArea := n.pondedArea, degree := n.degree, updated := n.updated,
    crownElev := n.crownElev, losses := n.losses,
    newVolume := n.newVolume, fullVolume := n.fullVolume,
    overflow := n.overflow, newDepth := n.newDepth,
    newLatFlow := n.newLatFlow }

/-- `swmm_getNodeData` (swmm5.c): when a project is open, reads
`Node[index]` with no range check of any kind; the total embedding returns
`none` for the out-of-range access (undefined behaviour in the source),
and otherwise the pair of the returned code and the filled record. -/
def swmm_getNodeData (s : SwmmState) (index : ℤ) :
    Option (Nat × Option NodeData) :=
  if s.isOpenFlag then
    if h : 0 ≤ index ∧ index.toNat < s.nodes.length then
      some (ERR_NONE, some (mkNodeData (s.nodes.get ⟨index.toNat, h.2⟩)))
    else none
  else some (ERR_NOT_OPEN, none)

/-- `swmm_addNodeInflow` (swmm5.c): when a project is open, adds the given
inflow to `Node[index].dllInflow` with no range check of any kind; the
total embedding returns `none` for the out-of-range access. -/
def swmm_addNodeInflow (s : SwmmState) (index : ℤ) (inflow : ℚ) :
    Option (SwmmState × Nat) :=
  if s.isOpenFlag then
    if h : 0 ≤ index ∧ index.toNat < s.nodes.length then
      let n := s.nodes.get ⟨index.toNat, h.2⟩
      some ({ s with nodes :=
                s.nodes.set index.toNat { n with dllInflow := n.dllInflow + inflow } },
            ERR_NONE)
    else none
  else some (s, ERR_NOT_OPEN)

/-- `swmm_getNodeID` (swmm5.c): rejects `index >= Nobjects[NODE]` with
`ERR_NUMBER`, but performs the unchecked access for a negative index
(`none` in the total embedding). -/
def swmm_getNodeID (s : SwmmState) (index : ℤ) : Option (Nat × Option String) :=
  if s.isOpenFlag then
    if index ≥ (s.nodes.length : ℤ) then some (ERR_NUMBER, none)
    else if h : 0 ≤ index ∧ index.toNat < s.nodes.length then
      some (ERR_NONE, some ((s.nodes.get ⟨index.toNat, h.2⟩).id))
    else none
  else some (ERR_NOT_OPEN, none)

/-- Iterated `swmm_step`: the driving caller's loop, threading the state
and the elapsed-time out-parameter through `n` step calls. -/
def stepIter (env : Env) (fuel : Nat) :
    Nat → SwmmState → ℚ → Option (SwmmState × ℚ)
  | 0, s, et => some (s, et)
  | n + 1, s, et =>
    match swmm_step env fuel s et with
    | none => none
    | some (s', et', _) => stepIter env fuel n s' et'

/-- The candidate routing instant of an `execRouting` invocation from
state `s`. -/
def nrtOf (env : Env) (s : SwmmState) : ℚ :=
  (clampPair s.newRoutingTime s.totalDuration (rawRoutingStep env s)).2

/-- A concrete, well-behaved collaborator oracle: 30-second routing steps,
20-second runoff advances, no errors. -/
def env0 : Env :=
  { routingStepOf := fun _ => 30
    runoffAdv := fun _ => 20000
    runoffErrAt := fun _ => 0
    routingErrAt := fun _ => 0
    projectOpenErr := 0
    projectReadErr := 0
    projectValidateErr := 0
    rainOpenErr := 0
    outputOpenErr := 0
    runoffOpenErr := 0
    hotstartOk := true
    hotstartErr := 0
    routingOpenErr := 0
    massbalOpenErr := 0
    statsOpenErr := 0 }

/-- An oracle whose routing engine answers a zero step length. -/
def envZeroStep : Env := { env0 with routingStepOf := fun _ => 0 }

/-- A concrete node. -/
def node0 : Node :=
  { id := "N1", inflow := 2, outflow := 1, invertElev := 10, newDepth := 3
    fullDepth := 5, initDepth := 0, surDepth := 0, pondedArea := 4
    degree := 1, updated := 1, crownElev := 15, losses := 0, newVolume := 6
    fullVolume := 9, overflow := 0, newLatFlow := 1, dllInflow := 0
    nodeType := 0, subIndex := 0 }

/-- A concrete started run: one-day duration, 300-second report step,
60-second wet-weather step, routing active, runoff inactive. -/
def s0 : SwmmState :=
  { errorCode := 0, warningCode := 0, isOpenFlag := true
    isStartedFlag := true, saveResultsFlag := true, exceptionCount := 0
    doRunoff := false, doRouting := true
    newRunoffTime := 0, newRoutingTime := 0, reportTime := 300000
    stepCount := 0, nonConvergeCount := 0
    runoffError := 0, gwaterError := 0, flowError := 0, qualError := 0
    totalDuration := 86400000, reportStep := 300, wetStep := 60
    routeStep := 30, ignoreRainfall := false, ignoreRouting := false
    nSubcatch := 0, nNode := 1, startDateTime := 0
    runoffCalls := 0, routingCalls := 0, climateCalls := 0
    climateLast := none, savedResults := [], nodes := [node0] }

/-- The concrete run at the instant the routing clock reached the total
duration. -/
def sEnd : SwmmState := { s0 with newRoutingTime := 86400000 }

/-- The concrete run with runoff active. -/
def s3 : SwmmState := { s0 with doRunoff := true }

/-- The concrete run with the next report instant already due. -/
def s4 : SwmmState := { s0 with reportTime := 10000 }

/-- The concrete run with routing disabled. -/
def s8 : SwmmState :=
  { s0 with doRouting := false, wetStep := 1, reportStep := 2, reportTime := 2000 }

/-- A concrete state carrying a sticky error code. -/
def sErr : SwmmState := { s0 with errorCode := 7 }

/-- A concrete open project with no run started. -/
def sOpen : SwmmState := { s0 with isStartedFlag := false }

/-- A concrete closed state (no project open, no run started). -/
def sClosed : SwmmState :=
  { s0 with isOpenFlag := false, isStartedFlag := false }

/-- The state produced by one `swmm_step` from `s0` under `env0`. -/
def cOut1 : SwmmState :=
  { s0 with newRoutingTime := 30000, stepCount := 1, routingCalls := 1,
            climateCalls := 1, climateLast := some (1 / 86400000) }

/-- The state produced by one `swmm_step` from `sEnd` under `env0`. -/
def cOutEnd : SwmmState :=
  { sEnd with reportTime := 600000, savedResults := [300000] }

/-- The state produced by two `swmm_step` calls from `s0` under `env0`. -/
def cOut2 : SwmmState :=
  { s0 with newRoutingTime := 60000, stepCount := 2, routingCalls := 2,
            climateCalls := 2, climateLast := some (30001 / 86400000) }

/-- The state produced by one `execRouting` from `s3` under `env0`. -/
def cOut3 : SwmmState :=
  { s3 with newRunoffTime := 40000, newRoutingTime := 30000, stepCount := 1,
            runoffCalls := 2, routingCalls := 1 }

/-- The state produced by one `swmm_step` from `s4` under `env0`. -/
def cOut4 : SwmmState :=
  { s4 with newRoutingTime := 30000, reportTime := 310000, stepCount := 1,
            routingCalls := 1, climateCalls := 1,
            climateLast := some (1 / 86400000), savedResults := [10000] }

/-- The state produced by one `swmm_step` from `s0` under `envZeroStep`. -/
def cOut5 : SwmmState :=
  { s0 with errorCode := ERR_TIMESTEP, stepCount := 1 }

/-- The state produced by one `execRouting` from `s8` under `env0`. -/
def cOut8 : SwmmState :=
  { s8 with newRoutingTime := 1000, stepCount := 1, climateCalls := 1,
            climateLast := some (1 / 86400000) }

end Swmm

namespace Swmm

/-! ## Helper lemmas -/

theorem runoff_execute_shape (env : Env) (s : SwmmState) :
    runoff_execute env s =
      { s with newRunoffTime := s.newRunoffTime + env.runoffAdv s.runoffCalls,
               errorCode := env.runoffErrAt s.runoffCalls,
               runoffCalls := s.runoffCalls + 1 } := rfl

theorem runoffLoop_shape (env : Env) (nrt : ℚ) :
    ∀ (fuel : Nat) (s : SwmmState) (r : LoopResult),
      runoffLoop env nrt fuel s = some r →
      r.state = { s with newRunoffTime := r.state.newRunoffTime,
                         errorCode := r.state.errorCode,
                         runoffCalls := r.state.runoffCalls } := by
  intro fuel
  induction fuel with
  | zero =>
    intro s r h
    simp only [runoffLoop] at h
    split at h
    · exact absurd h (by simp)
    · cases h
      rfl
  | succ n ih =>
    intro s r h
    simp only [runoffLoop] at h
    split at h
    · split at h
      · cases h
        rfl
      · exact ih (runoff_execute env s) r h
    · cases h
      rfl

theorem runoffLoop_done_ge (env : Env) (nrt : ℚ) :
    ∀ (fuel : Nat) (s u : SwmmState),
      runoffLoop env nrt fuel s = some (.done u) →
      nrt ≤ u.newRunoffTime := by
  intro fuel
  induction fuel with
  | zero =>
    intro s u h
    simp only [runoffLoop] at h
    split at h
    · exact absurd h (by simp)
    · cases h
      linarith [not_lt.mp (by assumption : ¬ s.newRunoffTime < nrt)]
  | succ n ih =>
    intro s u h
    simp only [runoffLoop] at h
    split at h
    · split at h
      · exact absurd h (by simp)
      · exact ih (runoff_execute env s) u h
    · cases h
      linarith [not_lt.mp (by assumption : ¬ s.newRunoffTime < nrt)]

theorem runoffLoop_aborted_err (env : Env) (nrt : ℚ) :
    ∀ (fuel : Nat) (s u : SwmmState),
      runoffLoop env nrt fuel s = some (.aborted u) →
      u.errorCode ≠ 0 := by
  intro fuel
  induction fuel with
  | zero =>
    intro s u h
    simp only [runoffLoop] at h
    split at h
    · exact absurd h (by simp)
    · exact absurd h (by simp)
  | succ n ih =>
    intro s u h
    simp only [runoffLoop] at h
    split at h
    · split at h
      · cases h
        assumption
      · exact ih (runoff_execute env s) u h
    · exact absurd h (by simp)

theorem runoffLoop_done_err (env : Env) (nrt : ℚ) :
    ∀ (fuel : Nat) (s u : SwmmState), s.errorCode = 0 →
      runoffLoop env nrt fuel s = some (.done u) →
      u.errorCode = 0 := by
  intro fuel
  induction fuel with
  | zero =>
    intro s u h0 h
    simp only [runoffLoop] at h
    split at h
    · exact absurd h (by simp)
    · cases h
      exact h0
  | succ n ih =>
    intro s u h0 h
    simp only [runoffLoop] at h
    split at h
    · split at h
      · exact absurd h (by simp)
      · exact ih (runoff_execute env s) u (by simpa using (by assumption :
          ¬ (runoff_execute env s).errorCode ≠ 0)) h
    · cases h
      exact h0

end Swmm

namespace Swmm

theorem clampPair_bounds (rt td stepLen : ℚ) (hrt : rt ≤ td)
    (hstep : 0 < stepLen) :
    rt ≤ (clampPair rt td stepLen).2 ∧ (clampPair rt td stepLen).2 ≤ td := by
  simp only [clampPair]
  split
  · exact ⟨hrt, le_refl td⟩
  · refine ⟨?_, ?_⟩
    · show rt ≤ rt + 1000 * stepLen
      nlinarith
    · show rt + 1000 * stepLen ≤ td
      linarith [not_lt.mp (by assumption : ¬ rt + 1000 * stepLen > td)]

theorem clampPair_clamped (rt td stepLen : ℚ)
    (hover : td < rt + 1000 * stepLen) :
    (clampPair rt td stepLen).2 = td ∧
    1 / 1000 ≤ (clampPair rt td stepLen).1 ∧
    (rt + 1000 * (clampPair rt td stepLen).1 = td ∨
      (clampPair rt td stepLen).1 = 1 / 1000) := by
  simp only [clampPair]
  rw [if_pos (by linarith : rt + 1000 * stepLen > td)]
  refine ⟨rfl, le_max_right _ _, ?_⟩
  rcases le_total (1 / 1000 : ℚ) ((td - rt) / 1000) with hc | hc
  · left
    rw [max_eq_left hc]
    ring
  · right
    rw [max_eq_right hc]

theorem routePhase_clock (env : Env) (rs nrt : ℚ) (s : SwmmState) :
    (routePhase env rs nrt s).newRoutingTime = nrt ∨
    ((routePhase env rs nrt s).newRoutingTime = s.newRoutingTime ∧
      (routePhase env rs nrt s).errorCode ≠ 0) := by
  simp only [routePhase, routing_execute]
  split
  · split
    · right
      exact ⟨rfl, by assumption⟩
    · left
      rfl
  · left
    rfl

theorem routePhase_shape (env : Env) (rs nrt : ℚ) (s : SwmmState) :
    routePhase env rs nrt s =
      { s with newRoutingTime := (routePhase env rs nrt s).newRoutingTime,
               errorCode := (routePhase env rs nrt s).errorCode,
               routingCalls := (routePhase env rs nrt s).routingCalls } := by
  simp only [routePhase, routing_execute]
  split
  · split
    · rfl
    · rfl
  · rfl

theorem routePhase_success (env : Env) (rs nrt : ℚ) (s : SwmmState)
    (h : (routePhase env rs nrt s).errorCode = 0) :
    (routePhase env rs nrt s).newRoutingTime = nrt := by
  rcases routePhase_clock env rs nrt s with hc | ⟨_, hne⟩
  · exact hc
  · exact absurd h hne

/-- Case analysis of `execRouting`: the fatal non-positive step, the
runoff-abort, the runoff-done and the no-runoff branches. -/
theorem execRouting_cases (env : Env) (fuel : Nat) (s s' : SwmmState)
    (h : execRouting env fuel s = some s') :
    (rawRoutingStep env s ≤ 0 ∧
      s' = { s with stepCount := s.stepCount + 1, errorCode := ERR_TIMESTEP }) ∨
    (0 < rawRoutingStep env s ∧ s.doRunoff = true ∧
      ∃ u, (runoffLoop env (nrtOf env s) fuel
              { s with stepCount := s.stepCount + 1 } = some (.aborted u) ∧
            s' = u) ∨
           (runoffLoop env (nrtOf env s) fuel
              { s with stepCount := s.stepCount + 1 } = some (.done u) ∧
            s' = routePhase env
              (clampPair s.newRoutingTime s.totalDuration (rawRoutingStep env s)).1
              (nrtOf env s) u)) ∨
    (0 < rawRoutingStep env s ∧ s.doRunoff = false ∧
      s' = routePhase env
        (clampPair s.newRoutingTime s.totalDuration (rawRoutingStep env s)).1
        (nrtOf env s)
        (climate_setState (getDateTime s.startDateTime s.newRoutingTime)
          { s with stepCount := s.stepCount + 1 })) := by
  simp only [execRouting, nrtOf] at h ⊢
  split at h
  · left
    cases h
    exact ⟨by assumption, rfl⟩
  · have hpos : 0 < rawRoutingStep env s :=
      lt_of_not_le (by assumption)
    split at h
    · right; left
      refine ⟨hpos, by assumption, ?_⟩
      rcases hm : runoffLoop env
          (clampPair s.newRoutingTime s.totalDuration (rawRoutingStep env s)).2
          fuel { s with stepCount := s.stepCount + 1 } with _ | r
      · rw [hm] at h
        exact absurd h (by simp)
      · rw [hm] at h
        cases r with
        | aborted u =>
          refine ⟨u, Or.inl ⟨rfl, ?_⟩⟩
          exact (Option.some_inj.mp h).symm
        | done u =>
          refine ⟨u, Or.inr ⟨rfl, ?_⟩⟩
          exact (Option.some_inj.mp h).symm
    · right; right
      refine ⟨hpos, by simpa using (by assumption : ¬ s.doRunoff = true), ?_⟩
      cases h
      rfl

end Swmm

namespace Swmm

theorem execRouting_pres (env : Env) (fuel : Nat) (s s' : SwmmState)
    (h : execRouting env fuel s = some s') :
    s'.totalDuration = s.totalDuration ∧ s'.reportTime = s.reportTime ∧
    s'.reportStep = s.reportStep ∧ s'.saveResultsFlag = s.saveResultsFlag ∧
    s'.savedResults = s.savedResults ∧ s'.isOpenFlag = s.isOpenFlag ∧
    s'.isStartedFlag = s.isStartedFlag ∧ s'.doRunoff = s.doRunoff ∧
    s'.doRouting = s.doRouting ∧ s'.wetStep = s.wetStep ∧
    s'.startDateTime = s.startDateTime ∧ s'.stepCount = s.stepCount + 1 := by
  rcases execRouting_cases env fuel s s' h with
    ⟨_, hs⟩ | ⟨_, _, u, ⟨hm, hs⟩ | ⟨hm, hs⟩⟩ | ⟨_, _, hs⟩
  · subst hs
    exact ⟨rfl, rfl, rfl, rfl, rfl, rfl, rfl, rfl, rfl, rfl, rfl, rfl⟩
  · have hu := runoffLoop_shape env (nrtOf env s) fuel
      { s with stepCount := s.stepCount + 1 } (.aborted u) hm
    simp only [LoopResult.state] at hu
    subst hs
    rw [hu]
    exact ⟨rfl, rfl, rfl, rfl, rfl, rfl, rfl, rfl, rfl, rfl, rfl, rfl⟩
  · have hu := runoffLoop_shape env (nrtOf env s) fuel
      { s with stepCount := s.stepCount + 1 } (.done u) hm
    simp only [LoopResult.state] at hu
    have hr := routePhase_shape env
      (clampPair s.newRoutingTime s.totalDuration (rawRoutingStep env s)).1
      (nrtOf env s) u
    subst hs
    rw [hr, hu]
    exact ⟨rfl, rfl, rfl, rfl, rfl, rfl, rfl, rfl, rfl, rfl, rfl, rfl⟩
  · have hr := routePhase_shape env
      (clampPair s.newRoutingTime s.totalDuration (rawRoutingStep env s)).1
      (nrtOf env s)
      (climate_setState (getDateTime s.startDateTime s.newRoutingTime)
        { s with stepCount := s.stepCount + 1 })
    subst hs
    rw [hr]
    exact ⟨rfl, rfl, rfl, rfl, rfl, rfl, rfl, rfl, rfl, rfl, rfl, rfl⟩

theorem execRouting_clock (env : Env) (fuel : Nat) (s s' : SwmmState)
    (hle : s.newRoutingTime ≤ s.totalDuration)
    (h : execRouting env fuel s = some s') :
    s.newRoutingTime ≤ s'.newRoutingTime ∧
    s'.newRoutingTime ≤ s.totalDuration := by
  rcases execRouting_cases env fuel s s' h with
    ⟨_, hs⟩ | ⟨hpos, _, u, ⟨hm, hs⟩ | ⟨hm, hs⟩⟩ | ⟨hpos, _, hs⟩
  · subst hs
    exact ⟨le_refl _, hle⟩
  · have hu := runoffLoop_shape env (nrtOf env s) fuel
      { s with stepCount := s.stepCount + 1 } (.aborted u) hm
    simp only [LoopResult.state] at hu
    subst hs
    rw [hu]
    exact ⟨le_refl _, hle⟩
  · have hb := clampPair_bounds s.newRoutingTime s.totalDuration
      (rawRoutingStep env s) hle hpos
    have hu := runoffLoop_shape env (nrtOf env s) fuel
      { s with stepCount := s.stepCount + 1 } (.done u) hm
    simp only [LoopResult.state] at hu
    rcases routePhase_clock env
        (clampPair s.newRoutingTime s.totalDuration (rawRoutingStep env s)).1
        (nrtOf env s) u with hc | ⟨hc, _⟩
    · subst hs
      rw [hc]
      exact ⟨hb.1, hb.2⟩
    · subst hs
      rw [hc, hu]
      exact ⟨le_refl _, hle⟩
  · have hb := clampPair_bounds s.newRoutingTime s.totalDuration
      (rawRoutingStep env s) hle hpos
    rcases routePhase_clock env
        (clampPair s.newRoutingTime s.totalDuration (rawRoutingStep env s)).1
        (nrtOf env s)
        (climate_setState (getDateTime s.startDateTime s.newRoutingTime)
          { s with stepCount := s.stepCount + 1 }) with hc | ⟨hc, _⟩
    · subst hs
      rw [hc]
      exact ⟨hb.1, hb.2⟩
    · subst hs
      rw [hc]
      exact ⟨le_refl _, hle⟩

theorem reportPhase_shape (s : SwmmState) :
    reportPhase s = { s with reportTime := (reportPhase s).reportTime,
                             savedResults := (reportPhase s).savedResults } := by
  simp only [reportPhase, output_saveResults]
  split
  · split
    · rfl
    · rfl
  · rfl

theorem reportPhase_skip (s : SwmmState) (h : s.newRoutingTime < s.reportTime) :
    reportPhase s = s := by
  simp only [reportPhase]
  rw [if_neg (by exact not_le.mpr h)]

theorem reportPhase_fire_save (s : SwmmState) (hf : s.saveResultsFlag = true)
    (h : s.reportTime ≤ s.newRoutingTime) :
    reportPhase s =
      { s with savedResults := s.savedResults ++ [s.reportTime],
               reportTime := s.reportTime + ((1000 * s.reportStep : ℤ) : ℚ) } := by
  simp only [reportPhase, output_saveResults]
  rw [if_pos (by exact h), if_pos hf]

theorem reportPhase_fire_nosave (s : SwmmState) (hf : s.saveResultsFlag = false)
    (h : s.reportTime ≤ s.newRoutingTime) :
    reportPhase s =
      { s with reportTime := s.reportTime + ((1000 * s.reportStep : ℤ) : ℚ) } := by
  simp only [reportPhase, output_saveResults]
  rw [if_pos (by exact h), if_neg (by simp [hf])]

theorem swmm_step_run (env : Env) (fuel : Nat) (s : SwmmState) (et : ℚ)
    (h0 : s.errorCode = 0) (ho : s.isOpenFlag = true) (hs : s.isStartedFlag = true)
    (s1 : SwmmState)
    (hexec : (if s.newRoutingTime < s.totalDuration then execRouting env fuel s
              else some s) = some s1) :
    swmm_step env fuel s et =
      some (reportPhase s1, elapsedOut (reportPhase s1),
            (reportPhase s1).errorCode) := by
  simp only [swmm_step]
  rw [if_neg (by simp [h0]), if_neg (by simp [ho, hs]), hexec]

end Swmm

namespace Swmm

theorem swmm_step_run_inv (env : Env) (fuel : Nat) (s : SwmmState) (et : ℚ)
    (s' : SwmmState) (et' : ℚ) (rc : Nat)
    (h0 : s.errorCode = 0) (ho : s.isOpenFlag = true)
    (hs : s.isStartedFlag = true)
    (h : swmm_step env fuel s et = some (s', et', rc)) :
    ∃ s1, (if s.newRoutingTime < s.totalDuration then execRouting env fuel s
           else some s) = some s1 ∧
      s' = reportPhase s1 ∧ et' = elapsedOut (reportPhase s1) ∧
      rc = (reportPhase s1).errorCode := by
  rcases hm : (if s.newRoutingTime < s.totalDuration then execRouting env fuel s
               else some s) with _ | s1
  · rw [swmm_step, if_neg (by simp [h0]), if_neg (by simp [ho, hs]), hm] at h
    exact absurd h (by simp)
  · rw [swmm_step_run env fuel s et h0 ho hs s1 hm] at h
    simp only [Option.some_inj, Prod.mk.injEq] at h
    exact ⟨s1, rfl, h.1.symm, h.2.1.symm, h.2.2.symm⟩

theorem swmm_step_err (env : Env) (fuel : Nat) (s : SwmmState) (et : ℚ)
    (h0 : s.errorCode ≠ 0) :
    swmm_step env fuel s et = some (s, et, s.errorCode) := by
  rw [swmm_step, if_pos h0]

theorem swmm_step_notopen (env : Env) (fuel : Nat) (s : SwmmState) (et : ℚ)
    (h0 : ¬ s.errorCode ≠ 0) (hof : (!s.isOpenFlag || !s.isStartedFlag) = true) :
    swmm_step env fuel s et =
      some ({ s with errorCode := ERR_NOT_OPEN }, et, ERR_NOT_OPEN) := by
  rw [swmm_step, if_neg h0, if_pos hof]
  rfl

theorem step_clock (env : Env) (fuel : Nat) (s : SwmmState) (et : ℚ)
    (s' : SwmmState) (et' : ℚ) (rc : Nat)
    (hle : s.newRoutingTime ≤ s.totalDuration)
    (h : swmm_step env fuel s et = some (s', et', rc)) :
    s.newRoutingTime ≤ s'.newRoutingTime ∧
    s'.newRoutingTime ≤ s'.totalDuration ∧
    s'.totalDuration = s.totalDuration := by
  by_cases h0 : s.errorCode ≠ 0
  · rw [swmm_step_err env fuel s et h0] at h
    simp only [Option.some_inj, Prod.mk.injEq] at h
    rw [← h.1]
    exact ⟨le_refl _, hle, rfl⟩
  · by_cases hof : (!s.isOpenFlag || !s.isStartedFlag) = true
    · rw [swmm_step_notopen env fuel s et h0 hof] at h
      simp only [Option.some_inj, Prod.mk.injEq] at h
      rw [← h.1]
      exact ⟨le_refl _, hle, rfl⟩
    · have hflags : s.isOpenFlag = true ∧ s.isStartedFlag = true := by
        constructor <;> simp_all
      obtain ⟨s1, hm, hsp, _, _⟩ := swmm_step_run_inv env fuel s et s' et' rc
        (by simpa using h0) hflags.1 hflags.2 h
      have hrp := reportPhase_shape s1
      have key : s.newRoutingTime ≤ s1.newRoutingTime ∧
          s1.newRoutingTime ≤ s.totalDuration ∧
          s1.totalDuration = s.totalDuration := by
        split at hm
        · exact ⟨(execRouting_clock env fuel s s1 hle hm).1,
                 (execRouting_clock env fuel s s1 hle hm).2,
                 (execRouting_pres env fuel s s1 hm).1⟩
        · cases hm
          exact ⟨le_refl _, hle, rfl⟩
      subst hsp
      rw [hrp]
      exact ⟨key.1, by rw [key.2.2]; exact key.2.1, key.2.2⟩

theorem stepIter_clock (env : Env) (fuel : Nat) :
    ∀ (n : Nat) (s : SwmmState) (et : ℚ) (s' : SwmmState) (et' : ℚ),
      s.newRoutingTime ≤ s.totalDuration →
      stepIter env fuel n s et = some (s', et') →
      s.newRoutingTime ≤ s'.newRoutingTime ∧
      s'.newRoutingTime ≤ s'.totalDuration := by
  intro n
  induction n with
  | zero =>
    intro s et s' et' hle h
    simp only [stepIter, Option.some_inj, Prod.mk.injEq] at h
    rw [← h.1]
    exact ⟨le_refl _, hle⟩
  | succ n ih =>
    intro s et s' et' hle h
    simp only [stepIter] at h
    rcases hm : swmm_step env fuel s et with _ | t
    · rw [hm] at h
      exact absurd h (by simp)
    · rw [hm] at h
      have hc := step_clock env fuel s et t.1 t.2.1 t.2.2 hle hm
      have := ih t.1 t.2.1 s' et' (by rw [← hc.2.2] at hc; exact hc.2.1) h
      exact ⟨le_trans hc.1 this.1, this.2⟩

end Swmm

namespace Swmm

/-- C1: for every `step` call made while the simulation is started and no
error is set, if after the orchestrator runs the routing clock is still
below the total duration then the elapsed-time out-parameter receives the
routing clock converted to days; once the routing clock has reached the
total duration the call writes exactly `0`, and any further call again
writes `0` and performs no further physical advance (`stepCount`,
`newRoutingTime` and `newRunoffTime` unchanged). -/
theorem c1_elapsed_days_and_zero_sentinel
    (env : Env) (fuel : Nat) (s : SwmmState) (et : ℚ)
    (s' : SwmmState) (et' : ℚ) (rc : Nat)
    (h0 : s.errorCode = 0) (ho : s.isOpenFlag = true)
    (hs : s.isStartedFlag = true)
    (h : swmm_step env fuel s et = some (s', et', rc)) :
    (s'.newRoutingTime < s'.totalDuration →
      et' = s'.newRoutingTime / MSECperDAY) ∧
    (¬ s'.newRoutingTime < s'.totalDuration → et' = 0) ∧
    (s.newRoutingTime = s.totalDuration →
      et' = 0 ∧ s'.stepCount = s.stepCount ∧
      s'.newRoutingTime = s.newRoutingTime ∧
      s'.newRunoffTime = s.newRunoffTime) := by
  obtain ⟨s1, hm, hsp, het, _⟩ :=
    swmm_step_run_inv env fuel s et s' et' rc h0 ho hs h
  rw [← hsp] at het
  refine ⟨?_, ?_, ?_⟩
  · intro hlt
    rw [het, elapsedOut, if_pos hlt]
  · intro hge
    rw [het, elapsedOut, if_neg hge]
  · intro heq
    have hnl : ¬ s.newRoutingTime < s.totalDuration := by
      rw [heq]
      exact lt_irrefl _
    rw [if_neg hnl] at hm
    have hs1 : s1 = s := (Option.some_inj.mp hm).symm
    subst hs1
    have hrp := reportPhase_shape s1
    rw [hrp] at hsp
    subst hsp
    refine ⟨?_, rfl, rfl, rfl⟩
    rw [het, elapsedOut]
    rw [if_neg (by exact hnl)]

/-- Witness for C1: stepping the concrete run `sEnd`, whose routing clock
has reached the total duration, returns elapsed time `0` and leaves the
step count and both clocks unchanged. -/
theorem c1_elapsed_days_and_zero_sentinel_witness :
    swmm_step env0 9 sEnd 0 = some (cOutEnd, 0, 0) ∧
    ((cOutEnd.newRoutingTime < cOutEnd.totalDuration →
       (0 : ℚ) = cOutEnd.newRoutingTime / MSECperDAY) ∧
     (¬ cOutEnd.newRoutingTime < cOutEnd.totalDuration → (0 : ℚ) = 0) ∧
     (sEnd.newRoutingTime = sEnd.totalDuration →
       (0 : ℚ) = 0 ∧ cOutEnd.stepCount = sEnd.stepCount ∧
       cOutEnd.newRoutingTime = sEnd.newRoutingTime ∧
       cOutEnd.newRunoffTime = sEnd.newRunoffTime)) := by
  have h : swmm_step env0 9 sEnd 0 = some (cOutEnd, 0, 0) := by
    norm_num [swmm_step, execRouting, reportPhase, elapsedOut,
      output_saveResults, report_writeErrorMsg, rawRoutingStep, clampPair,
      routePhase, routing_execute, climate_setState, getDateTime, runoffLoop,
      runoff_execute, env0, s0, sEnd, cOutEnd, ERR_TIMESTEP, ERR_NOT_OPEN,
      MSECperDAY, node0]
  exact ⟨h, c1_elapsed_days_and_zero_sentinel env0 9 sEnd 0 cOutEnd 0 0
    rfl rfl rfl h⟩

/-- C2: across every sequence of successful `step` calls of a started run
the routing clock is monotonically non-decreasing and never exceeds the
total duration (stated for a single step, which preserves the invariant,
and for the iterated driving loop); and whenever the candidate next
routing instant would exceed the total duration, the step length is
clamped so the candidate instant is the total duration exactly and the
clamped step is at least one millisecond: it either exactly reaches the
total duration or is the one-millisecond floor. -/
theorem c2_routing_clock_monotone_no_overshoot :
    (∀ (env : Env) (fuel : Nat) (s : SwmmState) (et : ℚ)
        (s' : SwmmState) (et' : ℚ) (rc : Nat),
      s.newRoutingTime ≤ s.totalDuration →
      swmm_step env fuel s et = some (s', et', rc) →
      s.newRoutingTime ≤ s'.newRoutingTime ∧
      s'.newRoutingTime ≤ s'.totalDuration ∧
      s'.totalDuration = s.totalDuration) ∧
    (∀ (env : Env) (fuel n : Nat) (s : SwmmState) (et : ℚ)
        (s' : SwmmState) (et' : ℚ),
      s.newRoutingTime ≤ s.totalDuration →
      stepIter env fuel n s et = some (s', et') →
      s.newRoutingTime ≤ s'.newRoutingTime ∧
      s'.newRoutingTime ≤ s'.totalDuration) ∧
    (∀ rt td stepLen : ℚ, 0 < stepLen → td < rt + 1000 * stepLen →
      (clampPair rt td stepLen).2 = td ∧
      1 / 1000 ≤ (clampPair rt td stepLen).1 ∧
      (rt + 1000 * (clampPair rt td stepLen).1 = td ∨
        (clampPair rt td stepLen).1 = 1 / 1000)) := by
  refine ⟨?_, ?_, ?_⟩
  · intro env fuel s et s' et' rc hle h
    exact step_clock env fuel s et s' et' rc hle h
  · intro env fuel n s et s' et' hle h
    exact stepIter_clock env fuel n s et s' et' hle h
  · intro rt td stepLen _ hover
    exact clampPair_clamped rt td stepLen hover

/-- Witness for C2: two concrete steps of `s0` under `env0` advance the
routing clock from `0` to `60000` milliseconds, within the one-day total
duration; and a concrete overshooting step is clamped to land exactly on
the total duration. -/
theorem c2_routing_clock_monotone_no_overshoot_witness :
    s0.newRoutingTime ≤ s0.totalDuration ∧
    stepIter env0 9 2 s0 0 = some (cOut2, 1 / 1440) ∧
    (s0.newRoutingTime ≤ cOut2.newRoutingTime ∧
     cOut2.newRoutingTime ≤ cOut2.totalDuration) ∧
    ((clampPair 86399000 86400000 30).2 = 86400000 ∧
     1 / 1000 ≤ (clampPair 86399000 86400000 30).1 ∧
     (86399000 + 1000 * (clampPair 86399000 86400000 30).1 = 86400000 ∨
       (clampPair 86399000 86400000 30).1 = 1 / 1000)) := by
  have hle : s0.newRoutingTime ≤ s0.totalDuration := by norm_num [s0, node0]
  have h : stepIter env0 9 2 s0 0 = some (cOut2, 1 / 1440) := by
    norm_num [stepIter, swmm_step, execRouting, reportPhase, elapsedOut,
      output_saveResults, report_writeErrorMsg, rawRoutingStep, clampPair,
      routePhase, routing_execute, climate_setState, getDateTime, runoffLoop,
      runoff_execute, env0, s0, cOut2, ERR_TIMESTEP, ERR_NOT_OPEN, MSECperDAY,
      node0]
  refine ⟨hle, h, ?_, ?_⟩
  · exact c2_routing_clock_monotone_no_overshoot.2.1 env0 9 2 s0 0 cOut2
      (1 / 1440) hle h
  · exact c2_routing_clock_monotone_no_overshoot.2.2 86399000 86400000 30
      (by norm_num) (by norm_num)

end Swmm

namespace Swmm

/-- C3: for every orchestrator invocation with runoff active that does not
fail earlier, the runoff engine is executed repeatedly until its clock
reaches or exceeds the candidate routing instant, so on successful
completion `newRunoffTime` is at least the candidate instant (at which the
routing clock then sits); and if any runoff execution sets the error code
the step aborts immediately without running routing (routing-call count
and routing clock unchanged). -/
theorem c3_runoff_catchup_loop
    (env : Env) (fuel : Nat) (s s' : SwmmState)
    (_h0 : s.errorCode = 0) (hr : s.doRunoff = true)
    (hpos : 0 < rawRoutingStep env s)
    (h : execRouting env fuel s = some s') :
    (s'.errorCode = 0 →
      nrtOf env s ≤ s'.newRunoffTime ∧ s'.newRoutingTime = nrtOf env s) ∧
    (∀ u, runoffLoop env (nrtOf env s) fuel
        { s with stepCount := s.stepCount + 1 } = some (.aborted u) →
      s' = u ∧ s'.newRoutingTime = s.newRoutingTime ∧
      s'.routingCalls = s.routingCalls) := by
  rcases execRouting_cases env fuel s s' h with
    ⟨hle, _⟩ | ⟨_, _, u, ⟨hm, hs'⟩ | ⟨hm, hs'⟩⟩ | ⟨_, hfalse, _⟩
  · exact absurd hle (not_le.mpr hpos)
  · -- the loop aborted on a runoff error
    have herr := runoffLoop_aborted_err env (nrtOf env s) fuel _ u hm
    have hu := runoffLoop_shape env (nrtOf env s) fuel
      { s with stepCount := s.stepCount + 1 } (.aborted u) hm
    simp only [LoopResult.state] at hu
    refine ⟨fun he => absurd (hs' ▸ he) herr, fun u' hm' => ?_⟩
    rw [hm] at hm'
    have huu : LoopResult.aborted u = LoopResult.aborted u' :=
      Option.some_inj.mp hm'
    injection huu with huu'
    subst huu'
    refine ⟨hs', ?_, ?_⟩
    · rw [hs', hu]
    · rw [hs', hu]
  · -- the loop completed; routing then runs
    have hge := runoffLoop_done_ge env (nrtOf env s) fuel _ u hm
    have hu := runoffLoop_shape env (nrtOf env s) fuel
      { s with stepCount := s.stepCount + 1 } (.done u) hm
    simp only [LoopResult.state] at hu
    have hrs := routePhase_shape env
      (clampPair s.newRoutingTime s.totalDuration (rawRoutingStep env s)).1
      (nrtOf env s) u
    subst hs'
    constructor
    · intro he
      refine ⟨?_, ?_⟩
      · have : (routePhase env
            (clampPair s.newRoutingTime s.totalDuration (rawRoutingStep env s)).1
            (nrtOf env s) u).newRunoffTime = u.newRunoffTime := by
          rw [hrs]
        rw [this]
        exact hge
      · exact routePhase_success env _ _ u he
    · intro u' hm'
      rw [hm] at hm'
      exact absurd (Option.some_inj.mp hm') (by simp)
  · rw [hr] at hfalse
    exact absurd hfalse (by simp)

/-- Witness for C3: from the concrete runoff-active state `s3` under
`env0`, the catch-up loop runs the runoff engine twice (20-second
advances) to cover the 30-second candidate instant, and routing lands the
clock there. -/
theorem c3_runoff_catchup_loop_witness :
    execRouting env0 9 s3 = some cOut3 ∧
    ((cOut3.errorCode = 0 →
       nrtOf env0 s3 ≤ cOut3.newRunoffTime ∧
       cOut3.newRoutingTime = nrtOf env0 s3) ∧
     (∀ u, runoffLoop env0 (nrtOf env0 s3) 9
         { s3 with stepCount := s3.stepCount + 1 } = some (.aborted u) →
       cOut3 = u ∧ cOut3.newRoutingTime = s3.newRoutingTime ∧
       cOut3.routingCalls = s3.routingCalls)) := by
  have h : execRouting env0 9 s3 = some cOut3 := by
    norm_num [execRouting, rawRoutingStep, clampPair, routePhase,
      routing_execute, climate_setState, getDateTime, runoffLoop,
      runoff_execute, env0, s0, s3, cOut3, ERR_TIMESTEP, node0]
  exact ⟨h, c3_runoff_catchup_loop env0 9 s3 cOut3 rfl rfl
    (by norm_num [rawRoutingStep, env0, s3, s0]) h⟩

end Swmm

namespace Swmm

theorem collabSet_shape (e : Nat) (s : SwmmState) :
    collabSet e s = { s with errorCode := (collabSet e s).errorCode } := by
  simp only [collabSet]
  split
  · rfl
  · rfl

theorem collabSet_reportTime (e : Nat) (s : SwmmState) :
    (collabSet e s).reportTime = s.reportTime := by
  simp only [collabSet]
  split
  · rfl
  · rfl

/-- C4: for every `step` call after which the routing clock has reached
the pending report instant, a snapshot is persisted keyed by the current
`reportTime` (exactly when saving was enabled) and `reportTime` advances
by exactly one report interval; when the routing clock is still short of
the report instant nothing is persisted and `reportTime` is unchanged; at
most one snapshot is taken per call; and a successful `start` initializes
`reportTime` to exactly one report interval. -/
theorem c4_reporting_scheduler
    (env : Env) (fuel : Nat) (s : SwmmState) (et : ℚ)
    (s' : SwmmState) (et' : ℚ) (rc : Nat)
    (h0 : s.errorCode = 0) (ho : s.isOpenFlag = true)
    (hs : s.isStartedFlag = true)
    (h : swmm_step env fuel s et = some (s', et', rc))
    (t : SwmmState) (sr : Bool)
    (ht0 : t.errorCode = 0) (hto : t.isOpenFlag = true)
    (hts : t.isStartedFlag = false) :
    ((s.reportTime ≤ s'.newRoutingTime →
        s'.reportTime = s.reportTime + ((1000 * s.reportStep : ℤ) : ℚ) ∧
        s'.savedResults = (if s.saveResultsFlag then
          s.savedResults ++ [s.reportTime] else s.savedResults)) ∧
     (s'.newRoutingTime < s.reportTime →
        s'.reportTime = s.reportTime ∧ s'.savedResults = s.savedResults) ∧
     s'.savedResults.length ≤ s.savedResults.length + 1) ∧
    (swmm_start env sr t).1.reportTime = ((1000 * t.reportStep : ℤ) : ℚ) := by
  obtain ⟨s1, hm, hsp, _, _⟩ :=
    swmm_step_run_inv env fuel s et s' et' rc h0 ho hs h
  have hpres : s1.reportTime = s.reportTime ∧ s1.reportStep = s.reportStep ∧
      s1.saveResultsFlag = s.saveResultsFlag ∧
      s1.savedResults = s.savedResults := by
    split at hm
    · have hp := execRouting_pres env fuel s s1 hm
      exact ⟨hp.2.1, hp.2.2.1, hp.2.2.2.1, hp.2.2.2.2.1⟩
    · obtain rfl := Option.some_inj.mp hm
      exact ⟨rfl, rfl, rfl, rfl⟩
  have hclock : s'.newRoutingTime = s1.newRoutingTime := by
    rw [hsp, reportPhase_shape s1]
  constructor
  · refine ⟨?_, ?_, ?_⟩
    · intro hf
      have hf1 : s1.reportTime ≤ s1.newRoutingTime := by
        rw [hpres.1, ← hclock]
        exact hf
      by_cases hsave : s.saveResultsFlag = true
      · have hfs := reportPhase_fire_save s1 (by rw [hpres.2.2.1]; exact hsave) hf1
        rw [hsp, hfs]
        constructor
        · show s1.reportTime + ((1000 * s1.reportStep : ℤ) : ℚ) =
            s.reportTime + ((1000 * s.reportStep : ℤ) : ℚ)
          rw [hpres.1, hpres.2.1]
        · show s1.savedResults ++ [s1.reportTime] = _
          rw [if_pos hsave, hpres.1, hpres.2.2.2]
      · have hsave' : s.saveResultsFlag = false := by
          simpa using hsave
        have hfs := reportPhase_fire_nosave s1
          (by rw [hpres.2.2.1]; exact hsave') hf1
        rw [hsp, hfs]
        constructor
        · show s1.reportTime + ((1000 * s1.reportStep : ℤ) : ℚ) =
            s.reportTime + ((1000 * s.reportStep : ℤ) : ℚ)
          rw [hpres.1, hpres.2.1]
        · show s1.savedResults = _
          rw [if_neg (by simp [hsave']), hpres.2.2.2]
    · intro hlt
      have hlt1 : s1.newRoutingTime < s1.reportTime := by
        rw [hpres.1, ← hclock]
        exact hlt
      have hskip := reportPhase_skip s1 hlt1
      rw [hsp, hskip]
      exact ⟨hpres.1, hpres.2.2.2⟩
    · rcases le_or_lt s1.reportTime s1.newRoutingTime with hf1 | hlt1
      · by_cases hsave : s1.saveResultsFlag = true
        · have hfs := reportPhase_fire_save s1 hsave hf1
          rw [hsp, hfs]
          show (s1.savedResults ++ [s1.reportTime]).length ≤ _
          rw [List.length_append, hpres.2.2.2]
          simp
        · have hfs := reportPhase_fire_nosave s1 (by simpa using hsave) hf1
          rw [hsp, hfs]
          show s1.savedResults.length ≤ _
          rw [hpres.2.2.2]
          exact Nat.le_succ _
      · rw [hsp, reportPhase_skip s1 hlt1, hpres.2.2.2]
        exact Nat.le_succ _
  · rw [swmm_start, if_neg (by simp [ht0]), if_neg (by simp [hto, hts])]
    simp only []
    split_ifs <;> simp [collabSet_reportTime]
end Swmm

namespace Swmm

/-- Witness for C4: stepping the concrete run `s4`, whose report instant
`10000` is already due, persists exactly one snapshot keyed `10000` and
advances `reportTime` by one 300-second interval; and a concrete `start`
from the open state initializes `reportTime` to one report interval. -/
theorem c4_reporting_scheduler_witness :
    swmm_step env0 9 s4 0 = some (cOut4, 1 / 2880, 0) ∧
    (((s4.reportTime ≤ cOut4.newRoutingTime →
        cOut4.reportTime = s4.reportTime + ((1000 * s4.reportStep : ℤ) : ℚ) ∧
        cOut4.savedResults = (if s4.saveResultsFlag then
          s4.savedResults ++ [s4.reportTime] else s4.savedResults)) ∧
      (cOut4.newRoutingTime < s4.reportTime →
        cOut4.reportTime = s4.reportTime ∧
        cOut4.savedResults = s4.savedResults) ∧
      cOut4.savedResults.length ≤ s4.savedResults.length + 1) ∧
     (swmm_start env0 true sOpen).1.reportTime =
       ((1000 * sOpen.reportStep : ℤ) : ℚ)) := by
  have h : swmm_step env0 9 s4 0 = some (cOut4, 1 / 2880, 0) := by
    norm_num [swmm_step, execRouting, reportPhase, elapsedOut,
      output_saveResults, report_writeErrorMsg, rawRoutingStep, clampPair,
      routePhase, routing_execute, climate_setState, getDateTime, runoffLoop,
      runoff_execute, env0, s0, s4, cOut4, ERR_TIMESTEP, ERR_NOT_OPEN,
      MSECperDAY, node0]
  exact ⟨h, c4_reporting_scheduler env0 9 s4 0 cOut4 (1 / 2880) 0
    rfl rfl rfl h sOpen true rfl rfl rfl⟩

/-- C5: for every `step` whose orchestrator invocation computes a
non-positive candidate routing step length, the call returns the fatal
invalid-timestep code, the sticky error code is set to it, and no runoff,
climate or routing advance occurs: both clocks and all collaborator call
counters are unchanged (only the step count is incremented). -/
theorem c5_invalid_timestep_aborts
    (env : Env) (fuel : Nat) (s : SwmmState) (et : ℚ)
    (s' : SwmmState) (et' : ℚ) (rc : Nat)
    (h0 : s.errorCode = 0) (ho : s.isOpenFlag = true)
    (hs : s.isStartedFlag = true)
    (hlt : s.newRoutingTime < s.totalDuration)
    (hstep : rawRoutingStep env s ≤ 0)
    (h : swmm_step env fuel s et = some (s', et', rc)) :
    rc = ERR_TIMESTEP ∧ s'.errorCode = ERR_TIMESTEP ∧
    s'.newRoutingTime = s.newRoutingTime ∧
    s'.newRunoffTime = s.newRunoffTime ∧
    s'.runoffCalls = s.runoffCalls ∧
    s'.climateCalls = s.climateCalls ∧
    s'.routingCalls = s.routingCalls ∧
    s'.stepCount = s.stepCount + 1 := by
  obtain ⟨s1, hm, hsp, _, hrc⟩ :=
    swmm_step_run_inv env fuel s et s' et' rc h0 ho hs h
  rw [if_pos hlt] at hm
  rcases execRouting_cases env fuel s s1 hm with
    ⟨_, hs1⟩ | ⟨hpos, _, _⟩ | ⟨hpos, _, _⟩
  · have hrp := reportPhase_shape s1
    rw [hrp] at hsp hrc
    subst hsp
    subst hs1
    exact ⟨hrc, rfl, rfl, rfl, rfl, rfl, rfl, rfl⟩
  · exact absurd hstep (not_le.mpr hpos)
  · exact absurd hstep (not_le.mpr hpos)

/-- Witness for C5: under the oracle whose routing engine answers a zero
step length, the very first step of the concrete run `s0` returns the
invalid-timestep code and leaves the clocks unchanged. -/
theorem c5_invalid_timestep_aborts_witness :
    swmm_step envZeroStep 9 s0 0 = some (cOut5, 0, ERR_TIMESTEP) ∧
    (ERR_TIMESTEP = ERR_TIMESTEP ∧ cOut5.errorCode = ERR_TIMESTEP ∧
     cOut5.newRoutingTime = s0.newRoutingTime ∧
     cOut5.newRunoffTime = s0.newRunoffTime ∧
     cOut5.runoffCalls = s0.runoffCalls ∧
     cOut5.climateCalls = s0.climateCalls ∧
     cOut5.routingCalls = s0.routingCalls ∧
     cOut5.stepCount = s0.stepCount + 1) := by
  have h : swmm_step envZeroStep 9 s0 0 = some (cOut5, 0, ERR_TIMESTEP) := by
    norm_num [swmm_step, execRouting, reportPhase, elapsedOut,
      output_saveResults, report_writeErrorMsg, rawRoutingStep, clampPair,
      routePhase, routing_execute, climate_setState, getDateTime, runoffLoop,
      runoff_execute, env0, envZeroStep, s0, cOut5, ERR_TIMESTEP, ERR_NOT_OPEN,
      MSECperDAY, node0]
  exact ⟨h, c5_invalid_timestep_aborts envZeroStep 9 s0 0 cOut5 0 ERR_TIMESTEP
    rfl rfl rfl (by norm_num [s0, node0])
    (by norm_num [rawRoutingStep, envZeroStep, env0, s0, node0]) h⟩

/-- Counterexample for C6: with a sticky error code set, `swmm_open` does
not short-circuit: it returns `0` instead of the existing code, clears the
error code and mutates the phase flags. -/
theorem c6_open_not_shortcircuit_counterexample :
    sErr.errorCode ≠ 0 ∧
    swmm_open env0 sErr = (sOpen, 0) ∧
    (swmm_open env0 sErr).2 ≠ sErr.errorCode ∧
    (swmm_open env0 sErr).1.errorCode ≠ sErr.errorCode ∧
    (swmm_open env0 sErr).1.isStartedFlag ≠ sErr.isStartedFlag := by
  have h : swmm_open env0 sErr = (sOpen, 0) := by
    norm_num [swmm_open, collabSet, env0, sErr, sOpen, s0, node0]
  refine ⟨by decide, h, ?_, ?_, ?_⟩ <;> rw [h] <;> decide

/-- C6 (amended): once the sticky error code is nonzero, `start` and
`step` short-circuit, returning the existing code with the state
completely unchanged; `open`, by contrast, does not short-circuit (it
resets the error state and reopens, see the counterexample). -/
theorem c6_sticky_error_shortcircuits
    (env : Env) (fuel : Nat) (s : SwmmState) (et : ℚ) (sr : Bool)
    (h : s.errorCode ≠ 0) :
    swmm_start env sr s = (s, s.errorCode) ∧
    swmm_step env fuel s et = some (s, et, s.errorCode) := by
  constructor
  · rw [swmm_start, if_pos h]
  · exact swmm_step_err env fuel s et h

/-- Witness for C6 (amended): the concrete errored state `sErr` is
returned untouched by both `start` and `step`, together with its code. -/
theorem c6_sticky_error_shortcircuits_witness :
    sErr.errorCode ≠ 0 ∧
    (swmm_start env0 true sErr = (sErr, sErr.errorCode) ∧
     swmm_step env0 9 sErr 0 = some (sErr, 0, sErr.errorCode)) :=
  ⟨by decide, c6_sticky_error_shortcircuits env0 9 sErr 0 true (by decide)⟩

/-- Counterexample for C7: a second `start` on the concrete started run
`s0` does return the not-open condition, but it does not leave the
simulation state unmutated: the sticky error code is changed from `0` to
the not-open code. -/
theorem c7_out_of_order_mutates_counterexample :
    s0.errorCode = 0 ∧ s0.isOpenFlag = true ∧ s0.isStartedFlag = true ∧
    swmm_start env0 true s0 = ({ s0 with errorCode := ERR_NOT_OPEN },
      ERR_NOT_OPEN) ∧
    (swmm_start env0 true s0).1.errorCode ≠ s0.errorCode := by
  have h : swmm_start env0 true s0 =
      ({ s0 with errorCode := ERR_NOT_OPEN }, ERR_NOT_OPEN) := by
    norm_num [swmm_start, report_writeErrorMsg, collabSet, env0, s0,
      ERR_NOT_OPEN, node0]
  refine ⟨rfl, rfl, rfl, h, ?_⟩
  rw [h]
  decide

/-- C7 (amended): every out-of-order lifecycle call made while no error is
set — `start` when not open or already started, `step` when not open or
not started, `end` when not open — returns the not-open condition, sets
the sticky error code to it, and leaves every other component of the
simulation state (in particular the clocks `newRunoffTime`,
`newRoutingTime` and `reportTime`) untouched. -/
theorem c7_out_of_order_rejected
    (env : Env) (fuel : Nat) (s : SwmmState) (et : ℚ) (sr : Bool)
    (h0 : s.errorCode = 0) :
    ((s.isOpenFlag = false ∨ s.isStartedFlag = true) →
      swmm_start env sr s =
        ({ s with errorCode := ERR_NOT_OPEN }, ERR_NOT_OPEN)) ∧
    ((s.isOpenFlag = false ∨ s.isStartedFlag = false) →
      swmm_step env fuel s et =
        some ({ s with errorCode := ERR_NOT_OPEN }, et, ERR_NOT_OPEN)) ∧
    (s.isOpenFlag = false →
      swmm_end s = ({ s with errorCode := ERR_NOT_OPEN }, ERR_NOT_OPEN)) := by
  refine ⟨?_, ?_, ?_⟩
  · intro hc
    rw [swmm_start, if_neg (by simp [h0]),
      if_pos (by rcases hc with hc | hc <;> simp [hc])]
    rfl
  · intro hc
    exact swmm_step_notopen env fuel s et (by simp [h0])
      (by rcases hc with hc | hc <;> simp [hc])
  · intro hc
    rw [swmm_end, if_pos (by simp [hc])]
    rfl

/-- Witness for C7 (amended): from the concrete closed state every phase
call is rejected with the not-open code and only the error code moves. -/
theorem c7_out_of_order_rejected_witness :
    sClosed.errorCode = 0 ∧
    (((sClosed.isOpenFlag = false ∨ sClosed.isStartedFlag = true) →
       swmm_start env0 true sClosed =
         ({ sClosed with errorCode := ERR_NOT_OPEN }, ERR_NOT_OPEN)) ∧
     ((sClosed.isOpenFlag = false ∨ sClosed.isStartedFlag = false) →
       swmm_step env0 9 sClosed 0 =
         some ({ sClosed with errorCode := ERR_NOT_OPEN }, 0, ERR_NOT_OPEN)) ∧
     (sClosed.isOpenFlag = false →
       swmm_end sClosed =
         ({ sClosed with errorCode := ERR_NOT_OPEN }, ERR_NOT_OPEN))) :=
  ⟨rfl, c7_out_of_order_rejected env0 9 sClosed 0 true rfl⟩

end Swmm

namespace Swmm

/-- Counterexample for C8: in the concrete invocation from `s0`, runoff is
inactive but routing is active, and the candidate routing step length is
the routing collaborator's answer (`30` seconds), not the smaller of the
wet-weather and reporting steps (`60` seconds): the clock advances to
`30000`, not `60000`. -/
theorem c8_dorunoff_step_counterexample :
    s0.doRunoff = false ∧
    rawRoutingStep env0 s0 = 30 ∧
    min ((s0.wetStep : ℤ) : ℚ) ((s0.reportStep : ℤ) : ℚ) = 60 ∧
    rawRoutingStep env0 s0 ≠
      min ((s0.wetStep : ℤ) : ℚ) ((s0.reportStep : ℤ) : ℚ) ∧
    execRouting env0 9 s0 = some cOut1 ∧
    cOut1.newRoutingTime = s0.newRoutingTime + 1000 * 30 ∧
    cOut1.newRoutingTime ≠ s0.newRoutingTime + 1000 * 60 := by
  have h : execRouting env0 9 s0 = some cOut1 := by
    norm_num [execRouting, rawRoutingStep, clampPair, routePhase,
      routing_execute, climate_setState, getDateTime, runoffLoop,
      runoff_execute, env0, s0, cOut1, ERR_TIMESTEP, node0]
  refine ⟨rfl, ?_, ?_, ?_, h, ?_, ?_⟩ <;>
    norm_num [rawRoutingStep, env0, s0, cOut1, node0]

/-- C8 (amended): for every orchestrator invocation in which `doRouting`
is false, the candidate routing step length is the smaller of the runoff
wet-weather step and the reporting step (rather than a value asked of the
routing collaborator), and on an error-free invocation the routing clock
advances to the candidate instant computed from that step. -/
theorem c8_norouting_uses_min_step
    (env : Env) (fuel : Nat) (s s' : SwmmState)
    (hdr : s.doRouting = false)
    (h : execRouting env fuel s = some s') :
    rawRoutingStep env s = min ((s.wetStep : ℤ) : ℚ) ((s.reportStep : ℤ) : ℚ) ∧
    (s'.errorCode = 0 →
      s'.newRoutingTime = (clampPair s.newRoutingTime s.totalDuration
        (min ((s.wetStep : ℤ) : ℚ) ((s.reportStep : ℤ) : ℚ))).2) := by
  have hraw : rawRoutingStep env s =
      min ((s.wetStep : ℤ) : ℚ) ((s.reportStep : ℤ) : ℚ) := by
    simp [rawRoutingStep, hdr]
  refine ⟨hraw, ?_⟩
  intro he
  rcases execRouting_cases env fuel s s' h with
    ⟨_, hs1⟩ | ⟨_, _, u, ⟨hm, hs1⟩ | ⟨hm, hs1⟩⟩ | ⟨_, _, hs1⟩
  · rw [hs1] at he
    have he' : ERR_TIMESTEP = 0 := he
    exact absurd he' (by decide)
  · have herr := runoffLoop_aborted_err env (nrtOf env s) fuel _ u hm
    exact absurd (hs1 ▸ he) herr
  · have hu := runoffLoop_shape env (nrtOf env s) fuel
      { s with stepCount := s.stepCount + 1 } (.done u) hm
    simp only [LoopResult.state] at hu
    have hudr : u.doRouting = false := by
      rw [hu]
      exact hdr
    have : s'.newRoutingTime = nrtOf env s := by
      rw [hs1]
      simp [routePhase, hudr]
    rw [this, nrtOf, hraw]
  · have hcdr : (climate_setState (getDateTime s.startDateTime s.newRoutingTime)
        { s with stepCount := s.stepCount + 1 }).doRouting = false := hdr
    have : s'.newRoutingTime = nrtOf env s := by
      rw [hs1]
      simp [routePhase, hcdr]
    rw [this, nrtOf, hraw]

/-- Witness for C8 (amended): from the concrete routing-disabled state
`s8`, the step length is `min 1 2 = 1` second and the clock lands on the
candidate instant `1000` milliseconds. -/
theorem c8_norouting_uses_min_step_witness :
    s8.doRouting = false ∧
    execRouting env0 9 s8 = some cOut8 ∧
    (rawRoutingStep env0 s8 =
       min ((s8.wetStep : ℤ) : ℚ) ((s8.reportStep : ℤ) : ℚ) ∧
     (cOut8.errorCode = 0 →
       cOut8.newRoutingTime = (clampPair s8.newRoutingTime s8.totalDuration
         (min ((s8.wetStep : ℤ) : ℚ) ((s8.reportStep : ℤ) : ℚ))).2)) := by
  have h : execRouting env0 9 s8 = some cOut8 := by
    norm_num [execRouting, rawRoutingStep, clampPair, routePhase,
      routing_execute, climate_setState, getDateTime, runoffLoop,
      runoff_execute, env0, s0, s8, cOut8, ERR_TIMESTEP, node0]
  exact ⟨rfl, h, c8_norouting_uses_min_step env0 9 s8 cOut8 rfl h⟩

/-- Counterexample for C9: in the concrete invocation from `s0` with
runoff inactive, a zero routing step length aborts the step before the
climate update, so the climate state is updated zero times, not exactly
once. -/
theorem c9_climate_skipped_counterexample :
    s0.doRunoff = false ∧
    execRouting envZeroStep 9 s0 = some cOut5 ∧
    cOut5.climateCalls = s0.climateCalls ∧
    cOut5.climateCalls ≠ s0.climateCalls + 1 := by
  have h : execRouting envZeroStep 9 s0 = some cOut5 := by
    norm_num [execRouting, rawRoutingStep, clampPair, routePhase,
      routing_execute, climate_setState, getDateTime, runoffLoop,
      runoff_execute, env0, envZeroStep, s0, cOut5, ERR_TIMESTEP, node0]
  exact ⟨rfl, h, by decide, by decide⟩

/-- C9 (amended): for every orchestrator invocation with runoff inactive,
the runoff clock is never advanced (and the runoff engine never invoked);
and when the invocation does not abort on a non-positive step length, the
climate state is updated exactly once, to the date-time of the current
routing clock instant. -/
theorem c9_norunoff_climate_update
    (env : Env) (fuel : Nat) (s s' : SwmmState)
    (hnr : s.doRunoff = false)
    (h : execRouting env fuel s = some s') :
    (s'.newRunoffTime = s.newRunoffTime ∧ s'.runoffCalls = s.runoffCalls) ∧
    (0 < rawRoutingStep env s →
      s'.climateCalls = s.climateCalls + 1 ∧
      s'.climateLast =
        some (getDateTime s.startDateTime s.newRoutingTime)) := by
  rcases execRouting_cases env fuel s s' h with
    ⟨hle, hs1⟩ | ⟨_, hdr, _⟩ | ⟨_, _, hs1⟩
  · subst hs1
    exact ⟨⟨rfl, rfl⟩, fun hpos => absurd hle (not_le.mpr hpos)⟩
  · rw [hnr] at hdr
    exact absurd hdr (by simp)
  · have hr := routePhase_shape env
      (clampPair s.newRoutingTime s.totalDuration (rawRoutingStep env s)).1
      (nrtOf env s)
      (climate_setState (getDateTime s.startDateTime s.newRoutingTime)
        { s with stepCount := s.stepCount + 1 })
    subst hs1
    rw [hr]
    exact ⟨⟨rfl, rfl⟩, fun _ => ⟨rfl, rfl⟩⟩

/-- Witness for C9 (amended): the concrete invocation from `s0` updates
the climate state exactly once, to `getDateTime` of routing instant `0`,
and leaves the runoff clock untouched. -/
theorem c9_norunoff_climate_update_witness :
    s0.doRunoff = false ∧
    execRouting env0 9 s0 = some cOut1 ∧
    ((cOut1.newRunoffTime = s0.newRunoffTime ∧
      cOut1.runoffCalls = s0.runoffCalls) ∧
     (0 < rawRoutingStep env0 s0 →
       cOut1.climateCalls = s0.climateCalls + 1 ∧
       cOut1.climateLast =
         some (getDateTime s0.startDateTime s0.newRoutingTime))) := by
  have h : execRouting env0 9 s0 = some cOut1 := by
    norm_num [execRouting, rawRoutingStep, clampPair, routePhase,
      routing_execute, climate_setState, getDateTime, runoffLoop,
      runoff_execute, env0, s0, cOut1, ERR_TIMESTEP, node0]
  exact ⟨rfl, h, c9_norunoff_climate_update env0 9 s0 cOut1 rfl h⟩

/-- C10: while a project is open, `swmm_getNodeData` and
`swmm_addNodeInflow` use the supplied node index with no range check of
any kind: the access faults (returns `none` in the total embedding)
exactly when the index is outside `0 ≤ index < number of nodes`, and for
an in-range index the returned code is always `ERR_NONE` — there is no
error-code branch for an out-of-range index at these entry points. -/
theorem c10_unchecked_node_access
    (s : SwmmState) (index : ℤ) (inflow : ℚ)
    (ho : s.isOpenFlag = true) :
    (swmm_getNodeData s index = none ↔
      ¬ (0 ≤ index ∧ index.toNat < s.nodes.length)) ∧
    (swmm_addNodeInflow s index inflow = none ↔
      ¬ (0 ≤ index ∧ index.toNat < s.nodes.length)) ∧
    (∀ code d, swmm_getNodeData s index = some (code, d) →
      code = ERR_NONE ∧ d.isSome = true) := by
  refine ⟨?_, ?_, ?_⟩
  · rw [swmm_getNodeData, if_pos ho]
    by_cases hb : 0 ≤ index ∧ index.toNat < s.nodes.length
    · rw [dif_pos hb]
      simp [hb]
    · rw [dif_neg hb]
      simp [hb]
  · rw [swmm_addNodeInflow, if_pos ho]
    by_cases hb : 0 ≤ index ∧ index.toNat < s.nodes.length
    · rw [dif_pos hb]
      simp [hb]
    · rw [dif_neg hb]
      simp [hb]
  · intro code d hcd
    rw [swmm_getNodeData, if_pos ho] at hcd
    by_cases hb : 0 ≤ index ∧ index.toNat < s.nodes.length
    · rw [dif_pos hb] at hcd
      have hp := Option.some_inj.mp hcd
      simp only [Prod.mk.injEq] at hp
      refine ⟨hp.1.symm, ?_⟩
      rw [← hp.2]
      rfl
    · rw [dif_neg hb] at hcd
      exact absurd hcd (by simp)
  
/-- Witness for C10: in the concrete open state `s0` with one node, index
`0` is in range (data returned with code `ERR_NONE`), and the fault/range
equivalences are instantiated. -/
theorem c10_unchecked_node_access_witness :
    s0.isOpenFlag = true ∧
    ((swmm_getNodeData s0 2 = none ↔
       ¬ ((0 : ℤ) ≤ 2 ∧ (2 : ℤ).toNat < s0.nodes.length)) ∧
     (swmm_addNodeInflow s0 2 5 = none ↔
       ¬ ((0 : ℤ) ≤ 2 ∧ (2 : ℤ).toNat < s0.nodes.length)) ∧
     (∀ code d, swmm_getNodeData s0 2 = some (code, d) →
       code = ERR_NONE ∧ d.isSome = true)) :=
  ⟨rfl, c10_unchecked_node_access s0 2 5 rfl⟩

end Swmm
